import Mathlib

/-!
Verification development for the DAMM `dlmm-fee-router` distribution engine.

This file gives a shallow embedding, in Lean 4, of the fee-distribution
engine found in `programs/dlmm-fee-router/src`:

* `state/distribution.rs` — the `DistributionState` record with its
  `can_distribute`, `start_new_day`, `is_page_done` and `mark_page_done`
  methods;
* `instructions/distribute_fees.rs` — the `distribute_fees` instruction
  (claim guard, pro-rata payout arithmetic, dust/cap policy, day close).

Machine-integer conventions: Rust `u64`/`u32`/`u128` values are represented as
`Nat`.  `checked_*` operations become `Option`-valued functions that fail
exactly when the Rust operation would return `None`; `saturating_*`
operations clamp at the type maximum; the remaining unchecked `+`/`+=`
operations are modelled with wrapping semantics (`% 2^64`, the behaviour of
release-mode Rust without overflow checks).  `i64` timestamps are modelled
as `Int`, and the one unchecked `i64` addition (the gate computation in
`can_distribute`) wraps into the `i64` range by the same convention.  Account mutation in the Solana runtime is transactional: an
instruction that returns an error commits nothing, so the embedding returns
`Except FeeRouterError PageResult`, where the `ok` payload carries the
committed `DistributionState` together with the token transfers performed
(investor transfer amounts in roster order, and the creator payout amount).
Token-transfer CPIs and event emission have no further effect on the engine
state and are modelled only through those recorded amounts.
-/

namespace DammFeeRouter

/-- Modulus of the Rust `u64` type. -/
def U64_LIMIT : Nat := 2 ^ 64

/-- Largest `u64` value. -/
def U64_MAX : Nat := 2 ^ 64 - 1

/-- Modulus of the Rust `u32` type. -/
def U32_LIMIT : Nat := 2 ^ 32

/-- Largest `u32` value. -/
def U32_MAX : Nat := 2 ^ 32 - 1

/-- Unchecked `u64` addition (release-mode Rust `+=`): wraps modulo `2^64`. -/
def wrap64 (n : Nat) : Nat := n % U64_LIMIT

/-- Unchecked `u32` addition: wraps modulo `2^32`. -/
def wrap32 (n : Nat) : Nat := n % U32_LIMIT

/-- Rust `u64::saturating_add`. -/
def satAdd64 (a b : Nat) : Nat := min (a + b) U64_MAX

/-- Rust `u32::saturating_add`. -/
def satAdd32 (a b : Nat) : Nat := min (a + b) U32_MAX

/-- Rust `u64::saturating_mul`. -/
def satMul64 (a b : Nat) : Nat := min (a * b) U64_MAX

/-- Rust `u64::checked_mul`: `none` exactly when the product overflows. -/
def checkedMul64 (a b : Nat) : Option Nat :=
  if a * b < U64_LIMIT then some (a * b) else none

/-- Rust `u64::checked_div`: `none` exactly on division by zero. -/
def checkedDiv (a b : Nat) : Option Nat :=
  if b = 0 then none else some (a / b)

/-- Constant `MAX_BPS` from `constants.rs`. -/
def MAX_BPS : Nat := 10000

/-- Constant `SECONDS_PER_DAY` from `constants.rs` (i64 seconds). -/
def SECONDS_PER_DAY : Int := 86400

/-- Smallest `i64` value. -/
def I64_MIN : Int := -(2 ^ 63)

/-- Largest `i64` value. -/
def I64_MAX : Int := 2 ^ 63 - 1

/-- Unchecked `i64` addition (release-mode Rust `+`): wraps into the
`i64` range `[-2^63, 2^63)`. -/
def wrapI64 (n : Int) : Int := (n + 2 ^ 63) % 2 ^ 64 - 2 ^ 63

/-- Error variants of `FeeRouterError` (errors.rs) reachable from the
distribution engine. -/
inductive FeeRouterError where
  | DistributionWindowNotReached
  | MathOverflow
  | InvalidPageNumber
  | NoFeesToClaim
  | BaseFeesDetected
  deriving DecidableEq, Repr

/-- Engine-relevant fields of the `Vault` account (state/vault.rs).
Pubkeys, bump and padding are omitted: `distribute_fees` reads only these. -/
structure Vault where
  investor_fee_share_bps : Nat
  min_payout_lamports : Nat
  daily_cap_lamports : Option Nat
  total_investor_allocation : Nat
  deriving DecidableEq, Repr

/-- The `DistributionState` account (state/distribution.rs), engine fields.
`vault` pubkey, `bump` and `_reserved` are omitted (never read or written by
the engine logic). -/
structure DistributionState where
  last_distribution_ts : Int
  current_day : Nat
  daily_distributed : Nat
  carry_over : Nat
  current_page : Nat
  day_complete : Bool
  day_claimed_fees : Nat
  day_investor_total : Nat
  page_cursor : Nat
  pages_processed : Nat
  pages_done_mask : Nat
  deriving DecidableEq, Repr

/-- `DistributionState::can_distribute` (distribution.rs lines 66-68):
`current_ts >= last_distribution_ts + SECONDS_PER_DAY`, where the `i64`
addition is unchecked and therefore wraps. -/
def can_distribute (s : DistributionState) (current_ts : Int) : Bool :=
  decide (wrapI64 (s.last_distribution_ts + SECONDS_PER_DAY) ≤ current_ts)

/-- `DistributionState::start_new_day` (distribution.rs lines 70-81). -/
def start_new_day (s : DistributionState) (current_ts : Int) : DistributionState :=
  { s with
    last_distribution_ts := current_ts
    current_day := wrap64 (s.current_day + 1)
    daily_distributed := 0
    current_page := 0
    day_complete := false
    day_claimed_fees := 0
    day_investor_total := 0
    page_cursor := 0
    pages_processed := 0
    pages_done_mask := 0 }

/-- `DistributionState::is_page_done` (distribution.rs lines 83-87): pages
`128` and above are reported as never done. -/
def is_page_done (s : DistributionState) (page : Nat) : Bool :=
  if 128 ≤ page then false
  else decide (s.pages_done_mask &&& (1 <<< page) ≠ 0)

/-- `DistributionState::mark_page_done` (distribution.rs lines 89-93): a
no-op for pages `128` and above. -/
def mark_page_done (s : DistributionState) (page : Nat) : DistributionState :=
  if 128 ≤ page then s
  else { s with pages_done_mask := s.pages_done_mask ||| (1 <<< page) }

/-- Treasury balances observed around the fee-claim CPI in
`claim_fees_from_position` (distribute_fees.rs lines 360-402).  The CPI's
return value is ignored by the source (`unwrap_or((0,0))`); only these
observed balances matter. -/
structure ClaimObservation where
  base_before : Nat
  base_after : Nat
  quote_before : Nat
  quote_after : Nat
  deriving DecidableEq, Repr

/-- `claim_fees_from_position` (distribute_fees.rs lines 360-402): enforce
`base_before == 0`, then `base_after == base_before`, then a strictly
positive quote delta (`saturating_sub`, hence `Nat` subtraction). -/
def claim_fees_from_position (c : ClaimObservation) : Except FeeRouterError Nat :=
  if c.base_before ≠ 0 then .error .BaseFeesDetected
  else if c.base_after ≠ c.base_before then .error .BaseFeesDetected
  else
    let claimed_quote := c.quote_after - c.quote_before
    if claimed_quote = 0 then .error .NoFeesToClaim
    else .ok claimed_quote

/-- Result of one `distribute_fees` call: the committed state, the investor
transfer amounts actually performed (in roster order), and the creator
payout transfer amount (`0` when no creator transfer happened). -/
structure PageResult where
  state : DistributionState
  investor_transfers : List Nat
  creator_transfer : Nat
  deriving DecidableEq, Repr

/-- Page-0 prologue of `distribute_fees` (lines 117-146): 24h gate,
`start_new_day`, fee claim, and recording `day_claimed_fees`.  For a
non-zero page the state passes through unchanged. -/
def begin_day (s0 : DistributionState) (page : Nat) (current_ts : Int)
    (claim : ClaimObservation) : Except FeeRouterError DistributionState :=
  if page = 0 then
    if can_distribute s0 current_ts then
      match claim_fees_from_position claim with
      | .error e => .error e
      | .ok claimed_amount =>
          .ok { start_new_day s0 current_ts with day_claimed_fees := claimed_amount }
    else .error .DistributionWindowNotReached
  else .ok s0

/-- Sum of locked amounts in `calculate_investor_payouts`
(distribute_fees.rs lines 324-352): `total_locked` accumulates with
`saturating_add` over the per-investor locked balances read from the
stream accounts.  The roster is the list of those locked balances. -/
def total_locked_of (roster : List Nat) : Nat :=
  roster.foldl satAdd64 0

/-- The `f_locked` computation (distribute_fees.rs lines 168-176):
`total_locked * MAX_BPS / total_investor_allocation` with `checked_mul` and
`checked_div`, or `0` when the allocation is zero. -/
def calc_f_locked (v : Vault) (total_locked : Nat) : Except FeeRouterError Nat :=
  if 0 < v.total_investor_allocation then
    match checkedMul64 total_locked MAX_BPS with
    | none => .error .MathOverflow
    | some m =>
      match checkedDiv m v.total_investor_allocation with
      | none => .error .MathOverflow
      | some q => .ok q
  else .ok 0

/-- Eligible share and `investor_fee_quote` (distribute_fees.rs lines
178-187): `min(investor_fee_share_bps, f_locked)` then
`day_claimed_fees * eligible / MAX_BPS` with `checked_mul`/`checked_div`. -/
def calc_investor_fee_quote (v : Vault) (day_claimed_fees total_locked : Nat) :
    Except FeeRouterError Nat :=
  match calc_f_locked v total_locked with
  | .error e => .error e
  | .ok f_locked =>
    let eligible := min v.investor_fee_share_bps f_locked
    match checkedMul64 day_claimed_fees eligible with
    | none => .error .MathOverflow
    | some m =>
      match checkedDiv m MAX_BPS with
      | none => .error .MathOverflow
      | some q => .ok q

/-- One investor's pro-rata amount (distribute_fees.rs lines 192-197):
`0` when `total_locked == 0`, otherwise
`investor_fee_quote.saturating_mul(locked).checked_div(total_locked)`.
Note the multiplication saturates rather than being overflow-checked. -/
def pro_rata_amount (investor_fee_quote total_locked locked : Nat) :
    Except FeeRouterError Nat :=
  if total_locked = 0 then .ok 0
  else
    match checkedDiv (satMul64 investor_fee_quote locked) total_locked with
    | none => .error .MathOverflow
    | some a => .ok a

/-- The pro-rata loop over the page roster (distribute_fees.rs lines
190-200), collecting each investor's computed amount. -/
def pro_rata_amounts (investor_fee_quote total_locked : Nat) :
    List Nat → Except FeeRouterError (List Nat)
  | [] => .ok []
  | locked :: rest =>
    match pro_rata_amount investor_fee_quote total_locked locked with
    | .error e => .error e
    | .ok a =>
      match pro_rata_amounts investor_fee_quote total_locked rest with
      | .error e => .error e
      | .ok tail => .ok (a :: tail)

/-- Mutable data threaded through the distribution loop of
`distribute_fees` (lines 204-256): the state's `carry_over` and
`daily_distributed` fields, the local `total_distributed` accumulator, and
the transfers performed so far. -/
structure LoopState where
  carry_over : Nat
  daily_distributed : Nat
  total_distributed : Nat
  transfers : List Nat
  deriving DecidableEq, Repr

/-- The daily-cap test (distribute_fees.rs lines 214-218):
`daily_distributed + amount > cap` when a cap is configured (unchecked
`u64` addition). -/
def capExceeded (v : Vault) (daily_distributed amount : Nat) : Bool :=
  match v.daily_cap_lamports with
  | some cap => decide (cap < wrap64 (daily_distributed + amount))
  | none => false

/-- One iteration of the distribution loop (distribute_fees.rs lines
206-256): dust check first (`amount < min_payout_lamports` diverts to
`carry_over`), then the cap check (divert to `carry_over`), otherwise the
amount is transferred and `daily_distributed` / `total_distributed`
accumulate.  The source guard `investor_ata_index < remaining_accounts.len()`
always holds, because each payout line was built from a pair of remaining
accounts, so it is not modelled. -/
def payout_step (v : Vault) (ls : LoopState) (amount : Nat) : LoopState :=
  if amount < v.min_payout_lamports then
    { ls with carry_over := wrap64 (ls.carry_over + amount) }
  else if capExceeded v ls.daily_distributed amount then
    { ls with carry_over := wrap64 (ls.carry_over + amount) }
  else
    { ls with
      daily_distributed := wrap64 (ls.daily_distributed + amount)
      total_distributed := wrap64 (ls.total_distributed + amount)
      transfers := ls.transfers ++ [amount] }

/-- The distribution loop folded over the page's computed amounts. -/
def payout_loop (v : Vault) (ls : LoopState) (amounts : List Nat) : LoopState :=
  amounts.foldl (payout_step v) ls

/-- Body of `distribute_fees` from the payout computation to the end
(distribute_fees.rs lines 159-313), for a page that is not an idempotent
replay: pro-rata arithmetic, rounding remainder into `carry_over`
(`saturating_add`), the distribution loop, `day_investor_total` update,
then either the day close (creator payout = `day_claimed_fees`
`saturating_sub` `day_investor_total`, `day_complete := true`) or the
advance of `current_page`/`page_cursor`/`pages_processed`, and finally
`mark_page_done`. -/
def process_payouts (v : Vault) (s : DistributionState) (page : Nat)
    (is_final_page : Bool) (roster : List Nat) :
    Except FeeRouterError PageResult :=
  let total_locked := total_locked_of roster
  match calc_investor_fee_quote v s.day_claimed_fees total_locked with
  | .error e => .error e
  | .ok investor_fee_quote =>
    match pro_rata_amounts investor_fee_quote total_locked roster with
    | .error e => .error e
    | .ok amounts =>
      let allocated_total := amounts.foldl satAdd64 0
      let rounding_remainder := investor_fee_quote - allocated_total
      let s1 := { s with carry_over := satAdd64 s.carry_over rounding_remainder }
      let ls := payout_loop v
        { carry_over := s1.carry_over
          daily_distributed := s1.daily_distributed
          total_distributed := 0
          transfers := [] } amounts
      let s2 := { s1 with
        carry_over := ls.carry_over
        daily_distributed := ls.daily_distributed
        day_investor_total := wrap64 (s1.day_investor_total + ls.total_distributed) }
      if is_final_page then
        let creator_payout := s2.day_claimed_fees - s2.day_investor_total
        let s3 := { s2 with day_complete := true }
        .ok { state := mark_page_done s3 page
              investor_transfers := ls.transfers
              creator_transfer := creator_payout }
      else
        let s3 := { s2 with
          current_page := wrap32 (s2.current_page + 1)
          page_cursor := satAdd64 s2.page_cursor 1
          pages_processed := satAdd32 s2.pages_processed 1 }
        .ok { state := mark_page_done s3 page
              investor_transfers := ls.transfers
              creator_transfer := 0 }

/-- The `distribute_fees` instruction (distribute_fees.rs lines 105-314):
page-0 prologue, `page == current_page` validation, the idempotency
short-circuit, then the payout body.  `roster` is the list of per-investor
locked balances read from the page's remaining accounts. -/
def distribute_fees (v : Vault) (s0 : DistributionState) (page : Nat)
    (is_final_page : Bool) (current_ts : Int) (claim : ClaimObservation)
    (roster : List Nat) : Except FeeRouterError PageResult :=
  match begin_day s0 page current_ts claim with
  | .error e => .error e
  | .ok s =>
    if page ≠ s.current_page then .error .InvalidPageNumber
    else if is_page_done s page then
      .ok { state := s, investor_transfers := [], creator_transfer := 0 }
    else process_payouts v s page is_final_page roster

/-- Sum of a list of amounts.  Specification-side helper, used only to
phrase overflow side conditions in theorem statements. -/
def sumNat : List Nat → Nat
  | [] => 0
  | a :: rest => a + sumNat rest

/-! ### Concrete instances used by counterexamples and witnesses -/

/-- The all-zero `DistributionState`, as created at vault setup. -/
def zeroState : DistributionState :=
  { last_distribution_ts := 0, current_day := 0, daily_distributed := 0,
    carry_over := 0, current_page := 0, day_complete := false,
    day_claimed_fees := 0, day_investor_total := 0, page_cursor := 0,
    pages_processed := 0, pages_done_mask := 0 }

/-- A claim observation with a clean base treasury and a quote delta of 100. -/
def smallClaim : ClaimObservation :=
  { base_before := 0, base_after := 0, quote_before := 0, quote_after := 100 }

/-- A vault with full investor share, no dust threshold, no cap, Y0 = 100. -/
def vaultY100 : Vault :=
  { investor_fee_share_bps := 10000, min_payout_lamports := 0,
    daily_cap_lamports := none, total_investor_allocation := 100 }

/-- State after committing page 0 (non-final) of a day claiming 100 with a
fully locked roster of one investor: `current_page = 1`, bit 0 set. -/
def midDayState : DistributionState :=
  { last_distribution_ts := 86400, current_day := 1, daily_distributed := 100,
    carry_over := 0, current_page := 1, day_complete := false,
    day_claimed_fees := 100, day_investor_total := 100, page_cursor := 1,
    pages_processed := 1, pages_done_mask := 1 }

/-- State at the close of the two-page day of the C1 counterexample: both
pages paid the full quote, so `day_investor_total = 200 > 100`. -/
def overDayState : DistributionState :=
  { last_distribution_ts := 86400, current_day := 1, daily_distributed := 200,
    carry_over := 0, current_page := 1, day_complete := true,
    day_claimed_fees := 100, day_investor_total := 200, page_cursor := 1,
    pages_processed := 1, pages_done_mask := 3 }

/-- State after a committed final page 1 of some day: `current_page` still 1
(final pages do not advance it), bit 1 set, `day_complete` true. -/
def finalDoneState : DistributionState :=
  { zeroState with current_page := 1, pages_done_mask := 2, day_complete := true }

/-- The spec §8 scenario vault: share 8000 bps, no dust threshold, no cap,
Y0 = 1,000,000. -/
def scenVault : Vault :=
  { investor_fee_share_bps := 8000, min_payout_lamports := 0,
    daily_cap_lamports := none, total_investor_allocation := 1000000 }

/-- The spec §8 scenario claim: quote delta 100,000, clean base treasury. -/
def scenClaim : ClaimObservation :=
  { base_before := 0, base_after := 0, quote_before := 0, quote_after := 100000 }

/-- End state of the scenario day (single final page 0). -/
def scenEndState : DistributionState :=
  { last_distribution_ts := 86400, current_day := 1, daily_distributed := 50000,
    carry_over := 0, current_page := 0, day_complete := true,
    day_claimed_fees := 100000, day_investor_total := 50000, page_cursor := 0,
    pages_processed := 0, pages_done_mask := 1 }

/-- Full result of the scenario run. -/
def scenResult : PageResult :=
  { state := scenEndState, investor_transfers := [30000, 20000],
    creator_transfer := 50000 }

/-- A claim observation with a pre-existing base treasury balance. -/
def dirtyBaseClaim : ClaimObservation :=
  { base_before := 5, base_after := 5, quote_before := 0, quote_after := 100 }

/-- Vault whose allocation Y0 = 2^50, for the saturating-multiplication run. -/
def satVault : Vault :=
  { investor_fee_share_bps := 10000, min_payout_lamports := 0,
    daily_cap_lamports := none, total_investor_allocation := 2 ^ 50 }

/-- Claim observation with a quote delta of 2^50. -/
def satClaim : ClaimObservation :=
  { base_before := 0, base_after := 0, quote_before := 0, quote_after := 2 ^ 50 }

/-- End state of the saturating-multiplication run: the single fully locked
investor receives 16383 instead of 2^50; the difference lands in carry_over. -/
def satEndState : DistributionState :=
  { last_distribution_ts := 86400, current_day := 1, daily_distributed := 16383,
    carry_over := 1125899906826241, current_page := 0, day_complete := true,
    day_claimed_fees := 1125899906842624, day_investor_total := 16383,
    page_cursor := 0, pages_processed := 0, pages_done_mask := 1 }

/-- Vault with Y0 = 1, used to overflow the `f_locked` checked multiply. -/
def tinyAllocVault : Vault :=
  { investor_fee_share_bps := 10000, min_payout_lamports := 0,
    daily_cap_lamports := none, total_investor_allocation := 1 }

/-- Mid-day state at page 1 with 5 claimed fees. -/
def page1State : DistributionState :=
  { zeroState with current_page := 1, day_claimed_fees := 5 }

/-- The scenario vault with a daily cap of 25,000. -/
def capVault : Vault :=
  { investor_fee_share_bps := 8000, min_payout_lamports := 0,
    daily_cap_lamports := some 25000, total_investor_allocation := 1000000 }

/-- End state of the capped scenario run: the 30,000 payout is cap-diverted
to carry_over, the 20,000 payout goes through. -/
def capEndState : DistributionState :=
  { last_distribution_ts := 86400, current_day := 1, daily_distributed := 20000,
    carry_over := 30000, current_page := 0, day_complete := true,
    day_claimed_fees := 100000, day_investor_total := 20000, page_cursor := 0,
    pages_processed := 0, pages_done_mask := 1 }

/-- Vault with a dust threshold of 2 and Y0 = 10,000. -/
def dustVault : Vault :=
  { investor_fee_share_bps := 10000, min_payout_lamports := 2,
    daily_cap_lamports := none, total_investor_allocation := 10000 }

/-- Page-1 state holding the maximal `u64` carry_over. -/
def hugeCarryState : DistributionState :=
  { zeroState with
    carry_over := 2 ^ 64 - 1
    current_page := 1
    day_claimed_fees := 10000 }

/-- End state of the wrapped-carry run: carry_over wrapped to 0. -/
def wrapEndState : DistributionState :=
  { zeroState with
    current_page := 2
    day_claimed_fees := 10000
    page_cursor := 1
    pages_processed := 1
    pages_done_mask := 2 }

/-- State after committing pages 0 and 1 (both non-final) of a day:
`current_page = 2`, bits 0 and 1 set. -/
def page2State : DistributionState :=
  { zeroState with
    current_page := 2
    pages_done_mask := 3
    day_claimed_fees := 100 }

/-- A state in the middle of an unfinished day (pages 0-2 done, day not
complete), used to show a new day starts regardless. -/
def unfinishedState : DistributionState :=
  { zeroState with
    current_page := 3
    pages_done_mask := 7
    daily_distributed := 50
    day_claimed_fees := 80
    day_investor_total := 50 }

/-- A state whose last distribution timestamp is `i64::MAX`, so that the
gate addition `last_distribution_ts + 86400` overflows `i64`. -/
def i64MaxState : DistributionState :=
  { zeroState with last_distribution_ts := 2 ^ 63 - 1 }

/-- End state of the run from `i64MaxState`: the wrapped gate passes at
time 0 and a full single-page day is processed. -/
def wrapGateEndState : DistributionState :=
  { last_distribution_ts := 0, current_day := 1, daily_distributed := 100,
    carry_over := 0, current_page := 0, day_complete := true,
    day_claimed_fees := 100, day_investor_total := 100, page_cursor := 0,
    pages_processed := 0, pages_done_mask := 1 }

/-- A state whose current page is 128, beyond the bitmap range. -/
def page128State : DistributionState :=
  { zeroState with current_page := 128, day_claimed_fees := 7 }

/-! ### Supporting lemmas -/

theorem mark_page_done_last_ts (s : DistributionState) (page : Nat) :
    (mark_page_done s page).last_distribution_ts = s.last_distribution_ts := by
  unfold mark_page_done; split <;> rfl

theorem mark_page_done_current_day (s : DistributionState) (page : Nat) :
    (mark_page_done s page).current_day = s.current_day := by
  unfold mark_page_done; split <;> rfl

theorem mark_page_done_daily (s : DistributionState) (page : Nat) :
    (mark_page_done s page).daily_distributed = s.daily_distributed := by
  unfold mark_page_done; split <;> rfl

theorem mark_page_done_carry (s : DistributionState) (page : Nat) :
    (mark_page_done s page).carry_over = s.carry_over := by
  unfold mark_page_done; split <;> rfl

theorem mark_page_done_fees (s : DistributionState) (page : Nat) :
    (mark_page_done s page).day_claimed_fees = s.day_claimed_fees := by
  unfold mark_page_done; split <;> rfl

theorem mark_page_done_investor_total (s : DistributionState) (page : Nat) :
    (mark_page_done s page).day_investor_total = s.day_investor_total := by
  unfold mark_page_done; split <;> rfl

theorem begin_day_pos (s0 : DistributionState) (page : Nat) (ts : Int)
    (cl : ClaimObservation) (h : page ≠ 0) :
    begin_day s0 page ts cl = .ok s0 := by
  simp [begin_day, h]

theorem distribute_fees_pos (v : Vault) (s0 : DistributionState) (page : Nat)
    (fin : Bool) (ts : Int) (cl : ClaimObservation) (roster : List Nat)
    (h : page ≠ 0) :
    distribute_fees v s0 page fin ts cl roster =
      if page ≠ s0.current_page then .error .InvalidPageNumber
      else if is_page_done s0 page then
        .ok { state := s0, investor_transfers := [], creator_transfer := 0 }
      else process_payouts v s0 page fin roster := by
  simp only [distribute_fees, begin_day_pos s0 page ts cl h]

theorem claim_fees_ok_val (cl : ClaimObservation) (c : Nat)
    (h : claim_fees_from_position cl = .ok c) :
    c = cl.quote_after - cl.quote_before := by
  unfold claim_fees_from_position at h
  split at h
  · cases h
  · split at h
    · cases h
    · dsimp only at h
      split at h
      · cases h
      · exact (Except.ok.inj h).symm

theorem claim_fees_error_cases (cl : ClaimObservation) (e : FeeRouterError)
    (h : claim_fees_from_position cl = .error e) :
    e = .BaseFeesDetected ∨ e = .NoFeesToClaim := by
  unfold claim_fees_from_position at h
  split at h
  · exact Or.inl (Except.error.inj h).symm
  · split at h
    · exact Or.inl (Except.error.inj h).symm
    · dsimp only at h
      split at h
      · exact Or.inr (Except.error.inj h).symm
      · cases h

theorem calc_f_locked_error (v : Vault) (tl : Nat) (e : FeeRouterError)
    (h : calc_f_locked v tl = .error e) : e = .MathOverflow := by
  unfold calc_f_locked at h
  split at h
  · split at h
    · exact (Except.error.inj h).symm
    · split at h
      · exact (Except.error.inj h).symm
      · cases h
  · cases h

theorem calc_investor_fee_quote_error (v : Vault) (fees tl : Nat)
    (e : FeeRouterError) (h : calc_investor_fee_quote v fees tl = .error e) :
    e = .MathOverflow := by
  unfold calc_investor_fee_quote at h
  split at h
  · next e' heq =>
      injection h with h'
      exact h' ▸ calc_f_locked_error v tl e' heq
  · dsimp only at h
    split at h
    · exact (Except.error.inj h).symm
    · split at h
      · exact (Except.error.inj h).symm
      · cases h

theorem pro_rata_amount_error (q tl l : Nat) (e : FeeRouterError)
    (h : pro_rata_amount q tl l = .error e) : e = .MathOverflow := by
  unfold pro_rata_amount at h
  split at h
  · cases h
  · split at h
    · exact (Except.error.inj h).symm
    · cases h

theorem pro_rata_amounts_error (q tl : Nat) (roster : List Nat)
    (e : FeeRouterError) (h : pro_rata_amounts q tl roster = .error e) :
    e = .MathOverflow := by
  induction roster with
  | nil => cases h
  | cons l rest ih =>
    unfold pro_rata_amounts at h
    split at h
    · next heq => cases h; exact pro_rata_amount_error q tl l e heq
    · split at h
      · next heq => cases h; exact ih heq
      · cases h

theorem satAdd64_eq_add (a b : Nat) (h : a + b < U64_LIMIT) :
    satAdd64 a b = a + b := by
  have hm : a + b ≤ U64_MAX := by
    have hd : U64_MAX = U64_LIMIT - 1 := rfl
    omega
  simpa [satAdd64] using Nat.min_eq_left hm

theorem wrap64_eq (n : Nat) (h : n < U64_LIMIT) : wrap64 n = n :=
  Nat.mod_eq_of_lt h

theorem wrapI64_eq (n : Int) (hlo : I64_MIN ≤ n) (hhi : n ≤ I64_MAX) :
    wrapI64 n = n := by
  unfold wrapI64
  unfold I64_MIN at hlo
  unfold I64_MAX at hhi
  have hp : (2 : Int) ^ 64 = 2 ^ 63 + 2 ^ 63 := by norm_num
  rw [Int.emod_eq_of_lt (by omega) (by omega)]
  omega

theorem process_payouts_error (v : Vault) (s : DistributionState) (page : Nat)
    (fin : Bool) (roster : List Nat) (e : FeeRouterError)
    (h : process_payouts v s page fin roster = .error e) : e = .MathOverflow := by
  simp only [process_payouts] at h
  split at h
  · next e' heq =>
      injection h with h'
      exact h' ▸ calc_investor_fee_quote_error _ _ _ _ heq
  · split at h
    · next e' heq =>
        injection h with h'
        exact h' ▸ pro_rata_amounts_error _ _ _ _ heq
    · split at h <;> cases h

theorem process_payouts_ok_fields (v : Vault) (s : DistributionState)
    (page : Nat) (fin : Bool) (roster : List Nat) (r : PageResult)
    (h : process_payouts v s page fin roster = .ok r) :
    r.state.current_day = s.current_day ∧
    r.state.last_distribution_ts = s.last_distribution_ts ∧
    r.state.day_claimed_fees = s.day_claimed_fees := by
  simp only [process_payouts] at h
  split at h
  · cases h
  · split at h
    · cases h
    · split at h <;>
      · injection h with h'
        subst h'
        refine ⟨?_, ?_, ?_⟩ <;>
          simp [mark_page_done_current_day, mark_page_done_last_ts,
            mark_page_done_fees]

theorem process_payouts_final_creator (v : Vault) (s : DistributionState)
    (page : Nat) (roster : List Nat) (r : PageResult)
    (h : process_payouts v s page true roster = .ok r) :
    r.creator_transfer = r.state.day_claimed_fees - r.state.day_investor_total := by
  simp only [process_payouts] at h
  split at h
  · cases h
  · split at h
    · cases h
    · split at h
      · injection h with h'
        subst h'
        simp [mark_page_done_fees, mark_page_done_investor_total]
      · next hcontra => exact absurd trivial hcontra

theorem payout_step_daily_le (v : Vault) (C : Nat)
    (hcap : v.daily_cap_lamports = some C) (ls : LoopState) (a : Nat)
    (h : ls.daily_distributed ≤ C) :
    (payout_step v ls a).daily_distributed ≤ C := by
  unfold payout_step
  split
  · exact h
  · split
    · exact h
    · next hc =>
      simp only [capExceeded, hcap, decide_eq_true_eq, Nat.not_lt] at hc
      simpa using hc

theorem payout_loop_daily_le (v : Vault) (C : Nat)
    (hcap : v.daily_cap_lamports = some C) :
    ∀ (amounts : List Nat) (ls : LoopState), ls.daily_distributed ≤ C →
      (payout_loop v ls amounts).daily_distributed ≤ C := by
  intro amounts
  induction amounts with
  | nil => intro ls h; exact h
  | cons a rest ih =>
    intro ls h
    rw [payout_loop, List.foldl_cons]
    exact ih (payout_step v ls a) (payout_step_daily_le v C hcap ls a h)

theorem payout_step_carry_cases (v : Vault) (ls : LoopState) (a : Nat) :
    (payout_step v ls a).carry_over = ls.carry_over ∨
    (payout_step v ls a).carry_over = wrap64 (ls.carry_over + a) := by
  unfold payout_step
  split
  · exact Or.inr rfl
  · split
    · exact Or.inr rfl
    · exact Or.inl rfl

theorem payout_loop_carry_bounds (v : Vault) :
    ∀ (amounts : List Nat) (ls : LoopState),
      ls.carry_over + sumNat amounts < U64_LIMIT →
      ls.carry_over ≤ (payout_loop v ls amounts).carry_over ∧
      (payout_loop v ls amounts).carry_over ≤ ls.carry_over + sumNat amounts := by
  intro amounts
  induction amounts with
  | nil =>
    intro ls h
    exact ⟨Nat.le_refl _, by simp [payout_loop, sumNat]⟩
  | cons a rest ih =>
    intro ls h
    have hsum : sumNat (a :: rest) = a + sumNat rest := rfl
    rw [hsum] at h
    have hwrap : wrap64 (ls.carry_over + a) = ls.carry_over + a :=
      wrap64_eq _ (by omega)
    rw [payout_loop, List.foldl_cons]
    rcases payout_step_carry_cases v ls a with hc | hc
    · have hmain := ih (payout_step v ls a) (by rw [hc]; omega)
      refine ⟨?_, ?_⟩
      · exact Nat.le_trans (Nat.le_of_eq hc.symm) hmain.1
      · rw [hsum]
        exact Nat.le_trans hmain.2 (by rw [hc]; omega)
    · rw [hwrap] at hc
      have hmain := ih (payout_step v ls a) (by rw [hc]; omega)
      refine ⟨?_, ?_⟩
      · exact Nat.le_trans (by omega : ls.carry_over ≤ ls.carry_over + a)
          (hc ▸ hmain.1)
      · rw [hsum]
        exact Nat.le_trans hmain.2 (by rw [hc]; omega)

theorem process_payouts_daily_le (v : Vault) (C : Nat) (s : DistributionState)
    (page : Nat) (fin : Bool) (roster : List Nat) (r : PageResult)
    (hcap : v.daily_cap_lamports = some C) (hs : s.daily_distributed ≤ C)
    (h : process_payouts v s page fin roster = .ok r) :
    r.state.daily_distributed ≤ C := by
  simp only [process_payouts] at h
  split at h
  · cases h
  · split at h
    · cases h
    · split at h <;>
      · injection h with h'
        subst h'
        simpa [mark_page_done_daily] using
          payout_loop_daily_le v C hcap _ _ (by simpa using hs)

theorem process_payouts_carry_mono (v : Vault) (s : DistributionState)
    (page : Nat) (fin : Bool) (roster : List Nat) (r : PageResult)
    (q : Nat) (amounts : List Nat)
    (hq : calc_investor_fee_quote v s.day_claimed_fees (total_locked_of roster) = .ok q)
    (ha : pro_rata_amounts q (total_locked_of roster) roster = .ok amounts)
    (hbound : s.carry_over + q + sumNat amounts < U64_LIMIT)
    (h : process_payouts v s page fin roster = .ok r) :
    s.carry_over ≤ r.state.carry_over := by
  simp only [process_payouts, hq, ha] at h
  have hrem : q - List.foldl satAdd64 0 amounts ≤ q := Nat.sub_le _ _
  have hs1 : satAdd64 s.carry_over (q - List.foldl satAdd64 0 amounts)
      = s.carry_over + (q - List.foldl satAdd64 0 amounts) :=
    satAdd64_eq_add _ _ (by omega)
  have hloop := (payout_loop_carry_bounds v amounts
    { carry_over := satAdd64 s.carry_over (q - List.foldl satAdd64 0 amounts)
      daily_distributed := s.daily_distributed
      total_distributed := 0
      transfers := [] } (by dsimp only; rw [hs1]; omega)).1
  dsimp only at hloop
  rw [hs1] at hloop
  split at h <;>
  · injection h with h'
    subst h'
    simp only [mark_page_done_carry]
    rw [hs1]
    omega

theorem distribute_fees_zero_err_gate (v : Vault) (s0 : DistributionState)
    (fin : Bool) (ts : Int) (cl : ClaimObservation) (roster : List Nat)
    (h : can_distribute s0 ts = false) :
    distribute_fees v s0 0 fin ts cl roster = .error .DistributionWindowNotReached := by
  simp [distribute_fees, begin_day, h]

theorem distribute_fees_zero_err_claim (v : Vault) (s0 : DistributionState)
    (fin : Bool) (ts : Int) (cl : ClaimObservation) (roster : List Nat)
    (e : FeeRouterError) (hg : can_distribute s0 ts = true)
    (hc : claim_fees_from_position cl = .error e) :
    distribute_fees v s0 0 fin ts cl roster = .error e := by
  simp [distribute_fees, begin_day, hg, hc]

theorem distribute_fees_zero_run (v : Vault) (s0 : DistributionState)
    (fin : Bool) (ts : Int) (cl : ClaimObservation) (roster : List Nat)
    (c : Nat) (hg : can_distribute s0 ts = true)
    (hc : claim_fees_from_position cl = .ok c) :
    distribute_fees v s0 0 fin ts cl roster =
      process_payouts v { start_new_day s0 ts with day_claimed_fees := c }
        0 fin roster := by
  simp [distribute_fees, begin_day, hg, hc, is_page_done, start_new_day]

theorem distribute_fees_pos_run (v : Vault) (s : DistributionState)
    (page : Nat) (fin : Bool) (ts : Int) (cl : ClaimObservation)
    (roster : List Nat) (hp : page ≠ 0) (hcur : page = s.current_page)
    (hdone : is_page_done s page = false) :
    distribute_fees v s page fin ts cl roster = process_payouts v s page fin roster := by
  rw [distribute_fees_pos v s page fin ts cl roster hp]
  rw [if_neg (by simp [hcur]), hdone]
  simp

/-! ### Claim theorems -/

/-- Claim C7, counterexample: the gate does NOT always fail before
`last_distribution_ts + 86400`.  The gate computes the unchecked `i64`
addition `last_distribution_ts + 86400`; with `last_distribution_ts =
i64::MAX` the sum wraps negative, so a page-0 request at time 0 — although
strictly before the mathematical `last_distribution_ts + 86400` — passes
the gate and commits a whole new day instead of failing with the window
error. -/
theorem c7_counterexample :
    (0 : Int) < i64MaxState.last_distribution_ts + SECONDS_PER_DAY ∧
    distribute_fees vaultY100 i64MaxState 0 true 0 smallClaim [100]
      = .ok { state := wrapGateEndState, investor_transfers := [100],
              creator_transfer := 0 } :=
  ⟨by decide, rfl⟩

/-- Claim C7, amended: whenever the gate addition does not overflow `i64`
(`I64_MIN ≤ last_distribution_ts` and `last_distribution_ts + 86400 ≤
I64_MAX`), a `process_page(page=0)` request at a time strictly before
`last_distribution_ts + 86400` always fails with the
distribution-window-not-reached error (and, the result being an error,
commits no mutation), regardless of prior history.  (Under overflow checks
the overflowing addition would instead abort with a panic — again not the
window error.) -/
theorem c7_amended_window_gate (v : Vault) (s0 : DistributionState)
    (fin : Bool) (ts : Int) (cl : ClaimObservation) (roster : List Nat)
    (hlo : I64_MIN ≤ s0.last_distribution_ts)
    (hhi : s0.last_distribution_ts + SECONDS_PER_DAY ≤ I64_MAX)
    (h : ts < s0.last_distribution_ts + SECONDS_PER_DAY) :
    distribute_fees v s0 0 fin ts cl roster = .error .DistributionWindowNotReached := by
  apply distribute_fees_zero_err_gate
  simp only [can_distribute, decide_eq_false_iff_not]
  rw [wrapI64_eq _ (by unfold I64_MIN at hlo ⊢; unfold SECONDS_PER_DAY; omega) hhi]
  omega

/-- Claim C7 witness: the gate error at a concrete early request. -/
theorem c7_amended_window_gate_witness :
    distribute_fees vaultY100 zeroState 0 false 3600 smallClaim [100]
      = .error .DistributionWindowNotReached :=
  c7_amended_window_gate vaultY100 zeroState false 3600 smallClaim [100]
    (by decide) (by decide) (by decide)

/-- Claim C2, counterexample: replaying a committed page is NOT always a
silent success.  `midDayState` is exactly the state after page 0 of a day
was successfully committed (bit 0 set in `pages_done_mask`); replaying
`process_page(page=0)` at the same timestamp fails with
`DistributionWindowNotReached` instead of returning success.  Likewise,
after the non-final page 1 is committed (`page2State`, bit 1 set,
`current_page` advanced to 2), replaying page 1 fails with
`InvalidPageNumber`. -/
theorem c2_counterexample :
    is_page_done midDayState 0 = true ∧
    distribute_fees vaultY100 midDayState 0 false 86400 smallClaim [100]
      = .error .DistributionWindowNotReached ∧
    is_page_done page2State 1 = true ∧
    distribute_fees vaultY100 page2State 1 false 86400 smallClaim [100]
      = .error .InvalidPageNumber :=
  ⟨rfl, rfl, rfl, rfl⟩

/-- Claim C2, amended: the idempotent-replay short-circuit holds exactly for
a committed final page: if `page ≠ 0`, `page = current_page` and the page's
bit is set, `process_page` returns success with no transfers and an
unchanged state.  (A committed non-final page advances `current_page`, so
its replay fails `InvalidPageNumber`; a committed page 0 re-enters the 24h
gate.) -/
theorem c2_amended_replay_noop (v : Vault) (s : DistributionState)
    (page : Nat) (fin : Bool) (ts : Int) (cl : ClaimObservation)
    (roster : List Nat) (hp : page ≠ 0) (hcur : page = s.current_page)
    (hdone : is_page_done s page = true) :
    distribute_fees v s page fin ts cl roster =
      .ok { state := s, investor_transfers := [], creator_transfer := 0 } := by
  rw [distribute_fees_pos v s page fin ts cl roster hp]
  rw [if_neg (by simp [hcur]), hdone]
  simp

/-- Claim C2 witness: replaying the committed final page 1 is a no-op. -/
theorem c2_amended_replay_noop_witness :
    distribute_fees vaultY100 finalDoneState 1 true 0 smallClaim []
      = .ok { state := finalDoneState, investor_transfers := [],
              creator_transfer := 0 } :=
  c2_amended_replay_noop vaultY100 finalDoneState 1 true 0 smallClaim []
    (by decide) rfl rfl

/-- Claim C9: for every page index `p ≥ 128`, `is_page_done` reports false
and `mark_page_done` leaves the state unchanged, so a committed page with
index 128 or greater is never recorded as done; consequently a replay with
`p = current_page` is not short-circuited but re-runs the full payout body. -/
theorem c9_pages_above_127 (v : Vault) (s : DistributionState) (page : Nat)
    (fin : Bool) (ts : Int) (cl : ClaimObservation) (roster : List Nat)
    (h : 128 ≤ page) :
    is_page_done s page = false ∧ mark_page_done s page = s ∧
      (page = s.current_page →
        distribute_fees v s page fin ts cl roster
          = process_payouts v s page fin roster) := by
  refine ⟨by simp [is_page_done, h], by simp [mark_page_done, h], ?_⟩
  intro hcur
  exact distribute_fees_pos_run v s page fin ts cl roster (by omega) hcur
    (by simp [is_page_done, h])

/-- Claim C9 witness: at page 128 the state is never marked and the call
re-executes the payout body. -/
theorem c9_pages_above_127_witness :
    is_page_done page128State 128 = false ∧
    mark_page_done page128State 128 = page128State ∧
    distribute_fees vaultY100 page128State 128 true 0 smallClaim []
      = process_payouts vaultY100 page128State 128 true [] := by
  obtain ⟨h1, h2, h3⟩ :=
    c9_pages_above_127 vaultY100 page128State 128 true 0 smallClaim [] (by decide)
  exact ⟨h1, h2, h3 rfl⟩

/-- Claim C3: in `process_page(page=0)` past the 24h gate, the claim step
fails `BaseFeesDetected` when the base treasury balance before the claim is
nonzero, or when the balance after differs from before; it fails
`NoFeesToClaim` when the quote delta is not strictly positive (all failures
are errors, so nothing — in particular `last_distribution_ts` — is
committed); on success the positive quote delta is the day's
`day_claimed_fees`. -/
theorem c3_claim_guard (v : Vault) (s0 : DistributionState) (fin : Bool)
    (ts : Int) (cl : ClaimObservation) (roster : List Nat)
    (hg : can_distribute s0 ts = true) :
    (cl.base_before ≠ 0 →
      distribute_fees v s0 0 fin ts cl roster = .error .BaseFeesDetected) ∧
    (cl.base_before = 0 → cl.base_after ≠ 0 →
      distribute_fees v s0 0 fin ts cl roster = .error .BaseFeesDetected) ∧
    (cl.base_before = 0 → cl.base_after = 0 →
      cl.quote_after ≤ cl.quote_before →
      distribute_fees v s0 0 fin ts cl roster = .error .NoFeesToClaim) ∧
    (∀ r, distribute_fees v s0 0 fin ts cl roster = .ok r →
      r.state.day_claimed_fees = cl.quote_after - cl.quote_before) := by
  refine ⟨?_, ?_, ?_, ?_⟩
  · intro h
    exact distribute_fees_zero_err_claim v s0 fin ts cl roster _ hg
      (by simp [claim_fees_from_position, h])
  · intro h0 h1
    exact distribute_fees_zero_err_claim v s0 fin ts cl roster _ hg
      (by simp [claim_fees_from_position, h0, h1])
  · intro h0 h1 h2
    exact distribute_fees_zero_err_claim v s0 fin ts cl roster _ hg
      (by simp [claim_fees_from_position, h0, h1, Nat.sub_eq_zero_of_le h2])
  · intro r hr
    cases hc : claim_fees_from_position cl with
    | error e =>
      rw [distribute_fees_zero_err_claim v s0 fin ts cl roster e hg hc] at hr
      cases hr
    | ok c =>
      rw [distribute_fees_zero_run v s0 fin ts cl roster c hg hc] at hr
      obtain ⟨-, -, h3⟩ := process_payouts_ok_fields _ _ _ _ _ _ hr
      rw [h3]
      exact claim_fees_ok_val cl c hc

/-- Claim C3 witness: a pre-existing base balance rejects page 0. -/
theorem c3_claim_guard_witness :
    distribute_fees vaultY100 zeroState 0 false 86400 dirtyBaseClaim []
      = .error .BaseFeesDetected :=
  (c3_claim_guard vaultY100 zeroState false 86400 dirtyBaseClaim []
    (by decide)).1 (by decide)

/-- Claim C1, counterexample: day conservation fails for adversarial
per-page rosters.  Over a two-page day (page 0 non-final, page 1 final)
where each page's roster is fully locked against Y0, every page pays the
whole `investor_fee_quote`, so at day close `day_investor_total = 200`
while `day_claimed_fees = 100`: the saturating creator payout is 0 and
`day_investor_total + creator_payout = 200 ≠ 100`. -/
theorem c1_counterexample :
    distribute_fees vaultY100 zeroState 0 false 86400 smallClaim [100]
      = .ok { state := midDayState, investor_transfers := [100],
              creator_transfer := 0 } ∧
    distribute_fees vaultY100 midDayState 1 true 86400 smallClaim [100]
      = .ok { state := overDayState, investor_transfers := [100],
              creator_transfer := 0 } ∧
    overDayState.day_investor_total + 0 ≠ overDayState.day_claimed_fees :=
  ⟨rfl, rfl, by decide⟩

/-- Claim C1, amended: at day close (a final page that is not an idempotent
replay), `day_investor_total + creator_payout =
max(day_claimed_fees, day_investor_total)` — so conservation
`day_investor_total + creator_payout = day_claimed_fees` holds exactly when
`day_investor_total ≤ day_claimed_fees` at close, and the saturating
subtraction otherwise leaves the excess unbalanced. -/
theorem c1_amended_day_close (v : Vault) (s0 : DistributionState)
    (page : Nat) (ts : Int) (cl : ClaimObservation) (roster : List Nat)
    (r : PageResult) (hdone : is_page_done s0 page = false)
    (h : distribute_fees v s0 page true ts cl roster = .ok r) :
    r.state.day_investor_total + r.creator_transfer
      = max r.state.day_claimed_fees r.state.day_investor_total := by
  have hcr : r.creator_transfer
      = r.state.day_claimed_fees - r.state.day_investor_total := by
    by_cases hp : page = 0
    · subst hp
      cases hg : can_distribute s0 ts with
      | false =>
        rw [distribute_fees_zero_err_gate v s0 true ts cl roster hg] at h
        cases h
      | true =>
        cases hc : claim_fees_from_position cl with
        | error e =>
          rw [distribute_fees_zero_err_claim v s0 true ts cl roster e hg hc] at h
          cases h
        | ok c =>
          rw [distribute_fees_zero_run v s0 true ts cl roster c hg hc] at h
          exact process_payouts_final_creator _ _ _ _ _ h
    · rw [distribute_fees_pos v s0 page true ts cl roster hp] at h
      split at h
      · cases h
      · split at h
        · next hdn => rw [hdone] at hdn; cases hdn
        · exact process_payouts_final_creator _ _ _ _ _ h
  rw [hcr]
  omega

/-- Claim C1 witness: the amended conservation at the scenario day. -/
theorem c1_amended_day_close_witness :
    scenResult.state.day_investor_total + scenResult.creator_transfer
      = max scenResult.state.day_claimed_fees
          scenResult.state.day_investor_total :=
  c1_amended_day_close scenVault zeroState 0 86400 scenClaim
    [300000, 200000] scenResult (by decide) rfl

/-- Claim C6, counterexample: on the spec §8 scenario inputs (Y0 =
1,000,000, share 8000 bps, locked 300,000 and 200,000, claimed fees
100,000) the code computes `investor_fee_quote = 50,000` — not 5,000 —
paying 30,000 and 20,000 with a creator payout of 50,000, not 95,000. -/
theorem c6_counterexample :
    distribute_fees scenVault zeroState 0 true 86400 scenClaim
      [300000, 200000] = .ok scenResult ∧
    calc_investor_fee_quote scenVault 100000 (total_locked_of [300000, 200000])
      = .ok 50000 ∧
    scenResult.investor_transfers ≠ [3000, 2000] ∧
    scenResult.creator_transfer ≠ 95000 :=
  ⟨rfl, rfl, by decide, by decide⟩

/-- Claim C6, amended: on the scenario inputs, `f_locked_bps = 5000`,
`eligible_bps = min(8000, 5000) = 5000`, `investor_fee_quote =
floor(100000 * 5000 / 10000) = 50000`, investor amounts 30,000 and 20,000
with zero rounding remainder, and final-page creator payout 50,000. -/
theorem c6_amended_scenario :
    calc_f_locked scenVault (total_locked_of [300000, 200000]) = .ok 5000 ∧
    min scenVault.investor_fee_share_bps 5000 = 5000 ∧
    calc_investor_fee_quote scenVault 100000 (total_locked_of [300000, 200000])
      = .ok 50000 ∧
    pro_rata_amounts 50000 (total_locked_of [300000, 200000]) [300000, 200000]
      = .ok [30000, 20000] ∧
    distribute_fees scenVault zeroState 0 true 86400 scenClaim
      [300000, 200000] = .ok scenResult :=
  ⟨rfl, rfl, rfl, rfl, rfl⟩

/-- Claim C4, counterexample: not every overflowing intermediate computation
fails with `MathOverflow`.  With Y0 = 2^50, claimed fees 2^50 and one fully
locked investor of 2^50, the per-investor pro-rata multiplication
`investor_fee_quote * locked = 2^100` overflows `u64`, yet the operation
succeeds: the multiplication saturates and the investor is paid 16383. -/
theorem c4_counterexample :
    calc_investor_fee_quote satVault (2 ^ 50) (total_locked_of [2 ^ 50])
      = .ok (2 ^ 50) ∧
    U64_LIMIT ≤ 2 ^ 50 * 2 ^ 50 ∧
    distribute_fees satVault zeroState 0 true 86400 satClaim [2 ^ 50]
      = .ok { state := satEndState, investor_transfers := [16383],
              creator_transfer := 1125899906826241 } :=
  ⟨rfl, by decide, rfl⟩

/-- Claim C4, amended: only the two `checked_mul` sites fail with
`MathOverflow` — the `f_locked` multiplication `total_locked * 10000` and
the day multiplication `day_claimed_fees * eligible_bps`; each such
overflow fails the page as an error (committing nothing).  The pro-rata
multiplication saturates, and the running additions are
saturating/unchecked rather than overflow-checked. -/
theorem c4_amended_checked_sites (v : Vault) (s : DistributionState)
    (page : Nat) (fin : Bool) (ts : Int) (cl : ClaimObservation)
    (roster : List Nat) (hp : page ≠ 0) (hcur : page = s.current_page)
    (hdone : is_page_done s page = false) :
    (0 < v.total_investor_allocation →
      U64_LIMIT ≤ total_locked_of roster * MAX_BPS →
      distribute_fees v s page fin ts cl roster = .error .MathOverflow) ∧
    (∀ f, calc_f_locked v (total_locked_of roster) = .ok f →
      U64_LIMIT ≤ s.day_claimed_fees * min v.investor_fee_share_bps f →
      distribute_fees v s page fin ts cl roster = .error .MathOverflow) := by
  have hrun := distribute_fees_pos_run v s page fin ts cl roster hp hcur hdone
  constructor
  · intro hY0 hmul
    have hf : calc_f_locked v (total_locked_of roster) = .error .MathOverflow := by
      simp [calc_f_locked, hY0, checkedMul64, Nat.not_lt.mpr hmul]
    have hq : calc_investor_fee_quote v s.day_claimed_fees
        (total_locked_of roster) = .error .MathOverflow := by
      simp [calc_investor_fee_quote, hf]
    rw [hrun]
    simp [process_payouts, hq]
  · intro f hf hbig
    have hq : calc_investor_fee_quote v s.day_claimed_fees
        (total_locked_of roster) = .error .MathOverflow := by
      simp [calc_investor_fee_quote, hf, checkedMul64, Nat.not_lt.mpr hbig]
    rw [hrun]
    simp [process_payouts, hq]

/-- Claim C4 witness: the checked `f_locked` multiplication does fail. -/
theorem c4_amended_checked_sites_witness :
    distribute_fees tinyAllocVault page1State 1 false 0 smallClaim [2 ^ 60]
      = .error .MathOverflow :=
  (c4_amended_checked_sites tinyAllocVault page1State 1 false 0 smallClaim
    [2 ^ 60] (by decide) rfl rfl).1 (by decide) (by decide)

/-- Claim C5: with `daily_cap_lamports = some C`, any successful
`process_page` from a state respecting the cap (page 0 resets the counter,
so it needs no assumption) leaves `daily_distributed ≤ C`; and in the
distribution loop, an investor amount that passes the dust check but whose
addition to the running `daily_distributed` would exceed `C` is added to
`carry_over` with no transfer — the check being evaluated per investor, in
page order, against the running counter (`payout_loop` folds `payout_step`
left-to-right). -/
theorem c5_daily_cap (v : Vault) (C : Nat)
    (hcap : v.daily_cap_lamports = some C) :
    (∀ (s0 : DistributionState) (page : Nat) (fin : Bool) (ts : Int)
        (cl : ClaimObservation) (roster : List Nat) (r : PageResult),
      page = 0 ∨ s0.daily_distributed ≤ C →
      distribute_fees v s0 page fin ts cl roster = .ok r →
      r.state.daily_distributed ≤ C) ∧
    (∀ (ls : LoopState) (amount : Nat),
      v.min_payout_lamports ≤ amount →
      C < wrap64 (ls.daily_distributed + amount) →
      payout_step v ls amount
        = { ls with carry_over := wrap64 (ls.carry_over + amount) }) := by
  constructor
  · intro s0 page fin ts cl roster r hinit h
    by_cases hp : page = 0
    · subst hp
      cases hg : can_distribute s0 ts with
      | false =>
        rw [distribute_fees_zero_err_gate v s0 fin ts cl roster hg] at h
        cases h
      | true =>
        cases hc : claim_fees_from_position cl with
        | error e =>
          rw [distribute_fees_zero_err_claim v s0 fin ts cl roster e hg hc] at h
          cases h
        | ok c =>
          rw [distribute_fees_zero_run v s0 fin ts cl roster c hg hc] at h
          exact process_payouts_daily_le v C _ 0 fin roster r hcap
            (Nat.zero_le C) h
    · rcases hinit with h0 | hle
      · exact absurd h0 hp
      · rw [distribute_fees_pos v s0 page fin ts cl roster hp] at h
        split at h
        · cases h
        · split at h
          · injection h with h'
            subst h'
            exact hle
          · exact process_payouts_daily_le v C s0 page fin roster r hcap hle h
  · intro ls amount hd hc
    have hce : capExceeded v ls.daily_distributed amount = true := by
      simp only [capExceeded, hcap, decide_eq_true_eq]
      exact hc
    unfold payout_step
    rw [if_neg (Nat.not_lt.mpr hd), if_pos hce]

/-- Claim C5 witness: on the capped scenario run the first investor's
30,000 is diverted and `daily_distributed` ends at 20,000 ≤ 25,000. -/
theorem c5_daily_cap_witness :
    capEndState.daily_distributed ≤ 25000 :=
  (c5_daily_cap capVault 25000 rfl).1 zeroState 0 true 86400 scenClaim
    [300000, 200000]
    { state := capEndState, investor_transfers := [20000],
      creator_transfer := 80000 }
    (Or.inl rfl) rfl

/-- Claim C8, counterexample: `process_page` CAN decrease `carry_over`.
From a state with `carry_over = u64::MAX`, a dust-diverted amount of 1 is
added with an unchecked `u64` addition, which wraps the counter to 0 (with
overflow checks enabled the transaction would instead abort).  The
operation succeeds and the committed `carry_over` is smaller than before. -/
theorem c8_counterexample :
    distribute_fees dustVault hugeCarryState 1 false 0 smallClaim [1]
      = .ok { state := wrapEndState, investor_transfers := [],
              creator_transfer := 0 } ∧
    wrapEndState.carry_over < hugeCarryState.carry_over :=
  ⟨rfl, by decide⟩

/-- Claim C8, amended: `start_new_day` leaves `carry_over` unchanged, and a
successful non-page-0 `process_page` never decreases `carry_over` provided
the additions into it (rounding remainder at most the page's
`investor_fee_quote`, plus the dust/cap-diverted amounts) stay below
`2^64`; no operation ever pays `carry_over` out. -/
theorem c8_amended_carry_monotone :
    (∀ (s : DistributionState) (ts : Int),
      (start_new_day s ts).carry_over = s.carry_over) ∧
    (∀ (v : Vault) (s0 : DistributionState) (page : Nat) (fin : Bool)
        (ts : Int) (cl : ClaimObservation) (roster : List Nat)
        (r : PageResult) (q : Nat) (amounts : List Nat),
      page ≠ 0 →
      calc_investor_fee_quote v s0.day_claimed_fees (total_locked_of roster)
        = .ok q →
      pro_rata_amounts q (total_locked_of roster) roster = .ok amounts →
      s0.carry_over + q + sumNat amounts < U64_LIMIT →
      distribute_fees v s0 page fin ts cl roster = .ok r →
      s0.carry_over ≤ r.state.carry_over) := by
  constructor
  · intro s ts
    rfl
  · intro v s0 page fin ts cl roster r q amounts hp hq ha hbound h
    rw [distribute_fees_pos v s0 page fin ts cl roster hp] at h
    split at h
    · cases h
    · split at h
      · injection h with h'
        subst h'
        exact Nat.le_refl _
      · exact process_payouts_carry_mono v s0 page fin roster r q amounts
          hq ha hbound h

/-- Claim C8 witness: carry_over monotone on a concrete page-1 run. -/
theorem c8_amended_carry_monotone_witness :
    midDayState.carry_over ≤ overDayState.carry_over :=
  c8_amended_carry_monotone.2 vaultY100 midDayState 1 true 86400 smallClaim
    [100]
    { state := overDayState, investor_transfers := [100], creator_transfer := 0 }
    100 [100] (by decide) rfl rfl (by decide) rfl

/-- Claim C10: `start_new_day` discards every per-day counter, the page
cursor and the bitmask and advances `current_day`, with no check of
`day_complete`; and a `process_page(page=0)` request 86400 seconds past
`last_distribution_ts`, even from a state whose previous day never
completed, does not fail the window gate and, on success, has started the
next day (`current_day` advanced, `last_distribution_ts := now`). -/
theorem c10_new_day_discards_incomplete_day :
    (∀ (s : DistributionState) (ts : Int),
      (start_new_day s ts).last_distribution_ts = ts ∧
      (start_new_day s ts).current_day = wrap64 (s.current_day + 1) ∧
      (start_new_day s ts).daily_distributed = 0 ∧
      (start_new_day s ts).current_page = 0 ∧
      (start_new_day s ts).day_complete = false ∧
      (start_new_day s ts).day_claimed_fees = 0 ∧
      (start_new_day s ts).day_investor_total = 0 ∧
      (start_new_day s ts).page_cursor = 0 ∧
      (start_new_day s ts).pages_processed = 0 ∧
      (start_new_day s ts).pages_done_mask = 0) ∧
    (∀ (v : Vault) (s0 : DistributionState) (fin : Bool) (ts : Int)
        (cl : ClaimObservation) (roster : List Nat),
      s0.day_complete = false →
      can_distribute s0 ts = true →
      distribute_fees v s0 0 fin ts cl roster
          ≠ .error .DistributionWindowNotReached ∧
      (∀ r, distribute_fees v s0 0 fin ts cl roster = .ok r →
        r.state.current_day = wrap64 (s0.current_day + 1) ∧
        r.state.last_distribution_ts = ts)) := by
  constructor
  · intro s ts
    exact ⟨rfl, rfl, rfl, rfl, rfl, rfl, rfl, rfl, rfl, rfl⟩
  · intro v s0 fin ts cl roster hdc hg
    constructor
    · intro hbad
      cases hc : claim_fees_from_position cl with
      | error e =>
        rw [distribute_fees_zero_err_claim v s0 fin ts cl roster e hg hc] at hbad
        injection hbad with h'
        rcases claim_fees_error_cases cl e hc with he | he <;>
          (rw [h'] at he; cases he)
      | ok c =>
        rw [distribute_fees_zero_run v s0 fin ts cl roster c hg hc] at hbad
        cases process_payouts_error _ _ _ _ _ _ hbad
    · intro r hr
      cases hc : claim_fees_from_position cl with
      | error e =>
        rw [distribute_fees_zero_err_claim v s0 fin ts cl roster e hg hc] at hr
        cases hr
      | ok c =>
        rw [distribute_fees_zero_run v s0 fin ts cl roster c hg hc] at hr
        obtain ⟨h1, h2, -⟩ := process_payouts_ok_fields _ _ _ _ _ _ hr
        exact ⟨h1, h2⟩

/-- Claim C10 witness: a new day starts from an unfinished previous day. -/
theorem c10_new_day_discards_incomplete_day_witness :
    unfinishedState.day_complete = false ∧
    distribute_fees vaultY100 unfinishedState 0 true 86400 smallClaim [100]
      ≠ .error .DistributionWindowNotReached :=
  ⟨rfl, (c10_new_day_discards_incomplete_day.2 vaultY100 unfinishedState true
    86400 smallClaim [100] rfl (by decide)).1⟩

end DammFeeRouter
